import Mathlib

/-!
Shallow embedding of the dVPN Peer & Settlement Engine:

* `NodeRegistry.sol` — per-node stake, reputation, slashing, earnings;
* `PaymentHub.sol` — time-vested payment streams and payment settlement;
* the node software's `BandwidthTracker` (updateStats / resetCounters) and
  `VPNNode.reportBandwidth` background task.

Solidity `uint256` is modelled as `Nat` (Solidity ^0.8 arithmetic reverts on
overflow rather than wrapping, so reachable values are the exact mathematical
ones; every subtraction in these contracts is guarded by an explicit check).
Solidity `address` is modelled as `Nat` with `0` for `address(0)`.
`keccak256(abi.encodePacked ...)` is modelled as an injective pairing of the
packed fields (hash collisions are assumed away).  ERC20 `transfer` /
`transferFrom` calls are modelled as succeeding: a failed token transfer
reverts the whole call, which in the embedding's apply-semantics is the
identity on state, so success-only modelling loses no reachable state.
`onlyOwner` / `nonReentrant` modifiers gate who may call, not what a call
does, and are not modelled; operations are taken as invoked by an authorised
caller, sequentially.
A reverted call is an `Except.error`; the caller-level semantics of a revert
(state rolled back) is the `apply*` wrappers returning the input state.
-/

namespace DVPN

abbrev Address := Nat

/-- Solidity `keccak256(abi.encodePacked(a, b, c))` for `createStream`'s stream id,
modelled as an injective pairing of the fields. -/
def hash3 (a b c : Nat) : Nat := Nat.pair a (Nat.pair b c)

/-- Solidity `keccak256(abi.encodePacked(a, b, c, d))` for `processPayment`'s payment
id, modelled as an injective pairing of the fields. -/
def hash4 (a b c d : Nat) : Nat := Nat.pair a (Nat.pair b (Nat.pair c d))

/-- Association-list model of a Solidity `mapping`: absent keys read as the
given default (the zero value of the struct), writes shadow older entries. -/
def mapGet {β : Type} (default : β) : List (Nat × β) → Nat → β
  | [], _ => default
  | (k, v) :: rest, a => if k = a then v else mapGet default rest a

def mapSet {β : Type} (l : List (Nat × β)) (a : Nat) (v : β) : List (Nat × β) :=
  (a, v) :: l

/-- Struct `NodeRegistry.Node`. -/
structure Node where
  owner : Address
  metadata : String
  stake : Nat
  reputation : Nat
  lastActive : Nat
  isActive : Bool
  totalBandwidthProvided : Nat
  totalEarnings : Nat
deriving Repr, DecidableEq

/-- The zero value of `Node`, what an unset mapping slot reads as. -/
def zeroNode : Node :=
  { owner := 0, metadata := "", stake := 0, reputation := 0, lastActive := 0,
    isActive := false, totalBandwidthProvided := 0, totalEarnings := 0 }

/-- Struct `NodeRegistry.PaymentTicket`. -/
structure PaymentTicket where
  node : Address
  amount : Nat
  bandwidth : Nat
  timestamp : Nat
  signature : String
deriving Repr, DecidableEq

/-- Storage of the `NodeRegistry` contract (`token` elided, see header). -/
structure RegistryState where
  minStake : Nat
  slashAmount : Nat
  nodes : List (Address × Node)
  isRegistered : List Address
  registeredNodes : List Address
deriving Repr, DecidableEq

def lookupNode (st : RegistryState) (a : Address) : Node :=
  mapGet zeroNode st.nodes a

/-- View `NodeRegistry.getNode`. -/
def getNode (st : RegistryState) (a : Address) : Node := lookupNode st a

/-- Function `NodeRegistry.registerNode(metadata, stake)`; `msgSender` is
`msg.sender`, `now` is `block.timestamp`. -/
def registerNode (msgSender : Address) (metadata : String) (stake : Nat)
    (now : Nat) (st : RegistryState) : Except String RegistryState :=
  if st.isRegistered.contains msgSender then .error "Node already registered"
  else if stake < st.minStake then .error "Insufficient stake"
  else .ok { st with
    nodes := mapSet st.nodes msgSender
      { owner := msgSender, metadata := metadata, stake := stake,
        reputation := 100, lastActive := now, isActive := true,
        totalBandwidthProvided := 0, totalEarnings := 0 },
    isRegistered := msgSender :: st.isRegistered,
    registeredNodes := st.registeredNodes ++ [msgSender] }

/-- Function `NodeRegistry.unregisterNode()`; `require(p)` is rendered as
"if p then continue else revert". -/
def unregisterNode (msgSender : Address) (st : RegistryState) :
    Except String RegistryState :=
  if st.isRegistered.contains msgSender then
    if (lookupNode st msgSender).isActive then
      .ok { st with
        nodes := mapSet st.nodes msgSender
          { lookupNode st msgSender with isActive := false, stake := 0 } }
    else .error "Node already inactive"
  else .error "Node not registered"

/-- Function `NodeRegistry.updateReputation(node, newReputation)` (onlyOwner). -/
def updateReputation (node : Address) (newReputation : Nat) (now : Nat)
    (st : RegistryState) : Except String RegistryState :=
  if st.isRegistered.contains node then
    .ok { st with
      nodes := mapSet st.nodes node
        { lookupNode st node with reputation := newReputation, lastActive := now } }
  else .error "Node not registered"

/-- Function `NodeRegistry.processPayment(ticket)` (onlyOwner). -/
def registryProcessPayment (ticket : PaymentTicket) (now : Nat)
    (st : RegistryState) : Except String RegistryState :=
  if st.isRegistered.contains ticket.node then
    if (lookupNode st ticket.node).isActive then
      .ok { st with
        nodes := mapSet st.nodes ticket.node
          { lookupNode st ticket.node with
            totalBandwidthProvided :=
              (lookupNode st ticket.node).totalBandwidthProvided + ticket.bandwidth,
            totalEarnings := (lookupNode st ticket.node).totalEarnings + ticket.amount,
            lastActive := now } }
    else .error "Node inactive"
  else .error "Node not registered"

/-- Function `NodeRegistry.slashNode(node, reason)` (onlyOwner); `slashValue` is
`slashAmount` clamped to the node's stake. -/
def slashNode (node : Address) (reason : String) (st : RegistryState) :
    Except String RegistryState :=
  if st.isRegistered.contains node then
    .ok { st with
      nodes := mapSet st.nodes node
        { lookupNode st node with
          stake := (lookupNode st node).stake -
            (if (lookupNode st node).stake < st.slashAmount then (lookupNode st node).stake
             else st.slashAmount),
          reputation := if (lookupNode st node).reputation > 50 then
              (lookupNode st node).reputation - 50
            else 0 } }
  else .error "Node not registered"

/-- The NodeRegistry operations named in the spec's NodeAccount component, as
a syntax of calls (arguments bundled with `block.timestamp`). -/
inductive RegistryOp where
  | register (msgSender : Address) (metadata : String) (stake now : Nat)
  | unregister (msgSender : Address)
  | setReputation (node : Address) (newReputation now : Nat)
  | payment (ticket : PaymentTicket) (now : Nat)
  | slash (node : Address) (reason : String)
deriving Repr

/-- Transaction semantics of a call result: a revert (error) rolls the
state back to the pre-call state. -/
def settle {σ : Type} (st : σ) : Except String σ → σ
  | .ok st2 => st2
  | .error _ => st

/-- Transaction semantics of one registry call. -/
def applyRegistryOp (op : RegistryOp) (st : RegistryState) : RegistryState :=
  settle st <|
    match op with
    | .register s m k n => registerNode s m k n st
    | .unregister s => unregisterNode s st
    | .setReputation a v n => updateReputation a v n st
    | .payment t n => registryProcessPayment t n st
    | .slash a r => slashNode a r st

/-- Contract storage right after the constructor: empty mappings, configured
thresholds (source defaults: `minStake = 1000e18`, `slashAmount = 500e18`). -/
def initRegistry (minStake slashAmount : Nat) : RegistryState :=
  { minStake := minStake, slashAmount := slashAmount, nodes := [],
    isRegistered := [], registeredNodes := [] }

def runRegistry (ops : List RegistryOp) (st : RegistryState) : RegistryState :=
  ops.foldl (fun s op => applyRegistryOp op s) st

/-- Struct `PaymentHub.Stream`. -/
structure Stream where
  sender : Address
  recipient : Address
  amount : Nat
  startTime : Nat
  endTime : Nat
  withdrawn : Nat
  isActive : Bool
deriving Repr, DecidableEq

/-- The zero value of `Stream`, what an unset mapping slot reads as. -/
def zeroStream : Stream :=
  { sender := 0, recipient := 0, amount := 0, startTime := 0, endTime := 0,
    withdrawn := 0, isActive := false }

/-- Struct `PaymentHub.Payment`. -/
structure Payment where
  sender : Address
  recipient : Address
  amount : Nat
  timestamp : Nat
  signature : String
deriving Repr, DecidableEq

/-- Storage of the `PaymentHub` contract; `registry` is the `NodeRegistry`
instance it calls into (`token` and `userBalances` elided — `userBalances`
is written by no function of the source).  Source defaults:
`minPayment = 1e18`, `paymentFee = 50` basis points. -/
structure HubState where
  minPayment : Nat
  paymentFee : Nat
  totalFeesCollected : Nat
  streams : List (Nat × Stream)
  processedPayments : List Nat
  registry : RegistryState
deriving Repr, DecidableEq

def lookupStream (streams : List (Nat × Stream)) (id : Nat) : Stream :=
  mapGet zeroStream streams id

/-- Function `PaymentHub.createStream(recipient, amount, duration)`; returns the
stream id together with the updated storage. -/
def createStream (msgSender recipient : Address) (amount duration : Nat)
    (now : Nat) (st : HubState) : Except String (Nat × HubState) :=
  if amount = 0 then .error "Amount must be greater than 0"
  else if duration = 0 then .error "Duration must be greater than 0"
  else if recipient = 0 then .error "Invalid recipient"
  else if recipient = msgSender then .error "Cannot stream to self"
  else if (lookupStream st.streams (hash3 msgSender recipient now)).sender ≠ 0 then
    .error "Stream already exists"
  else .ok (hash3 msgSender recipient now, { st with
    streams := mapSet st.streams (hash3 msgSender recipient now)
      { sender := msgSender, recipient := recipient, amount := amount,
        startTime := now, endTime := now + duration, withdrawn := 0,
        isActive := true } })

/-- View `PaymentHub.getAvailableAmount(streamId)` (`now` is `block.timestamp`;
`elapsed` is `now - startTime`, `duration` is `endTime - startTime`,
`proportionalAmount` is `amount * elapsed / duration`). -/
def getAvailableAmount (st : HubState) (streamId : Nat) (now : Nat) : Nat :=
  if (lookupStream st.streams streamId).isActive then
    if now - (lookupStream st.streams streamId).startTime ≥
        (lookupStream st.streams streamId).endTime -
          (lookupStream st.streams streamId).startTime then
      (lookupStream st.streams streamId).amount - (lookupStream st.streams streamId).withdrawn
    else if (lookupStream st.streams streamId).amount *
          (now - (lookupStream st.streams streamId).startTime) /
          ((lookupStream st.streams streamId).endTime -
            (lookupStream st.streams streamId).startTime) >
        (lookupStream st.streams streamId).withdrawn then
      (lookupStream st.streams streamId).amount *
          (now - (lookupStream st.streams streamId).startTime) /
          ((lookupStream st.streams streamId).endTime -
            (lookupStream st.streams streamId).startTime) -
        (lookupStream st.streams streamId).withdrawn
    else 0
  else 0

/-- Function `PaymentHub.withdrawFromStream(streamId, amount)`. -/
def withdrawFromStream (msgSender : Address) (streamId : Nat) (amount : Nat)
    (now : Nat) (st : HubState) : Except String HubState :=
  if (lookupStream st.streams streamId).isActive then
    if msgSender = (lookupStream st.streams streamId).recipient then
      if amount = 0 then .error "Amount must be greater than 0"
      else if (lookupStream st.streams streamId).withdrawn + amount ≤
          (lookupStream st.streams streamId).amount then
        if amount ≤ getAvailableAmount st streamId now then
          .ok { st with
            streams := mapSet st.streams streamId
              { lookupStream st.streams streamId with
                withdrawn := (lookupStream st.streams streamId).withdrawn + amount } }
        else .error "Amount exceeds available balance"
      else .error "Insufficient stream balance"
    else .error "Only recipient can withdraw"
  else .error "Stream not active"

/-- Function `PaymentHub.cancelStream(streamId)`. -/
def cancelStream (msgSender : Address) (streamId : Nat) (st : HubState) :
    Except String HubState :=
  if (lookupStream st.streams streamId).isActive then
    if msgSender = (lookupStream st.streams streamId).sender then
      .ok { st with
        streams := mapSet st.streams streamId
          { lookupStream st.streams streamId with isActive := false } }
    else .error "Only sender can cancel"
  else .error "Stream not active"

/-- Function `PaymentHub.processPayment(payment)` (onlyOwner).  The external call
`nodeRegistry.processPayment(ticket)` reverting makes the whole hub call
revert, hence the `Except` chaining. -/
def hubProcessPayment (payment : Payment) (now : Nat) (st : HubState) :
    Except String HubState :=
  if st.processedPayments.contains
      (hash4 payment.sender payment.recipient payment.amount payment.timestamp) then
    .error "Payment already processed"
  else if payment.amount < st.minPayment then .error "Payment too small"
  else if (getNode st.registry payment.recipient).isActive then
    match registryProcessPayment
        { node := payment.recipient,
          amount := payment.amount - payment.amount * st.paymentFee / 10000,
          bandwidth := 0, timestamp := payment.timestamp,
          signature := payment.signature } now st.registry with
    | .error e => .error e
    | .ok reg => .ok { st with
        processedPayments :=
          hash4 payment.sender payment.recipient payment.amount payment.timestamp ::
            st.processedPayments,
        totalFeesCollected :=
          st.totalFeesCollected + payment.amount * st.paymentFee / 10000,
        registry := reg }
  else .error "Recipient not an active node"

/-- Transaction semantics of one hub `processPayment` call. -/
def applyHubPayment (payment : Payment) (now : Nat) (st : HubState) : HubState :=
  settle st (hubProcessPayment payment now st)

/-- The stream-facing PaymentHub operations (`createStream`, `withdraw`,
`cancelStream`), as a syntax of calls. -/
inductive HubOp where
  | create (msgSender recipient : Address) (amount duration now : Nat)
  | withdraw (msgSender : Address) (streamId amount now : Nat)
  | cancel (msgSender : Address) (streamId : Nat)
deriving Repr

/-- Transaction semantics of one stream call. -/
def applyHubOp (op : HubOp) (st : HubState) : HubState :=
  settle st <|
    match op with
    | .create s r a d n => Except.map Prod.snd (createStream s r a d n st)
    | .withdraw s id a n => withdrawFromStream s id a n st
    | .cancel s id => cancelStream s id st

/-- Hub storage right after the constructor: empty mappings. -/
def initHub (minPayment paymentFee : Nat) (reg : RegistryState) : HubState :=
  { minPayment := minPayment, paymentFee := paymentFee, totalFeesCollected := 0,
    streams := [], processedPayments := [], registry := reg }

def runHub (ops : List HubOp) (st : HubState) : HubState :=
  ops.foldl (fun s op => applyHubOp op s) st

/-- The spec's per-stream state classification (§4.4 of the design document)
read off the source `Stream` record: `Cancelled` when the stream has been
deactivated, `Completed` when fully withdrawn, `Active` otherwise. -/
inductive StreamPhase where
  | active
  | completed
  | cancelled
deriving Repr, DecidableEq

def streamPhase (s : Stream) : StreamPhase :=
  if ¬ s.isActive then .cancelled
  else if s.withdrawn = s.amount then .completed
  else .active

/-! Embedding of the node software's bandwidth metering
(`BandwidthTracker` in the TypeScript node) and the reporting task
(`VPNNode.reportBandwidth`). -/

/-- Record `ClientStats` for one tracked client. -/
structure ClientStats where
  ip : String
  connectedAt : Nat
  bytesSent : Nat
  bytesReceived : Nat
deriving Repr, DecidableEq

/-- Record `BandwidthStats`: the tracker's global accumulator plus per-client
accumulators (clients as an association list keyed by public key). -/
structure BandwidthStats where
  bytesSent : Nat
  bytesReceived : Nat
  startTime : Nat
  clients : List (String × ClientStats)
deriving Repr, DecidableEq

/-- One entry of `WireGuardManager.getTransferStats()`: the tunnel's
*cumulative* rx/tx byte counters for a peer, as printed by
`wg show <interface> transfer`. -/
structure TransferStat where
  publicKey : String
  received : Nat
  sent : Nat
deriving Repr, DecidableEq

/-- Read a tracked client's counters (zeroed record when untracked). -/
def getClient : List (String × ClientStats) → String → ClientStats
  | [], _ => { ip := "", connectedAt := 0, bytesSent := 0, bytesReceived := 0 }
  | (k, c) :: rest, key => if k = key then c else getClient rest key

/-- Add `r`/`s` to the stored counters of client `key`, if tracked;
untracked keys leave the list unchanged (the source's
`if (this.stats.clients[publicKey])` guard). -/
def addToClient : List (String × ClientStats) → String → Nat → Nat →
    List (String × ClientStats)
  | [], _, _, _ => []
  | (k, c) :: rest, key, r, s =>
    if k = key then
      (k, { c with bytesReceived := c.bytesReceived + r,
                   bytesSent := c.bytesSent + s }) :: rest
    else (k, c) :: addToClient rest key r s

/-- Method `BandwidthTracker.updateStats()`: one metering tick.  For every peer in
the poll result the polled counter values are added to the global
accumulator and to the peer's stored counters. -/
def updateStats (transferStats : List TransferStat) (st : BandwidthStats) :
    BandwidthStats :=
  transferStats.foldl
    (fun s t =>
      { s with
        bytesReceived := s.bytesReceived + t.received,
        bytesSent := s.bytesSent + t.sent,
        clients := addToClient s.clients t.publicKey t.received t.sent })
    st

/-- Method `BandwidthTracker.getTotalBandwidth()`. -/
def getTotalBandwidth (st : BandwidthStats) : Nat :=
  st.bytesSent + st.bytesReceived

/-- Method `BandwidthTracker.resetCounters()`. -/
def resetCounters (st : BandwidthStats) : BandwidthStats :=
  { st with
    bytesSent := 0,
    bytesReceived := 0,
    clients := st.clients.map
      (fun kc => (kc.1, { kc.2 with bytesSent := 0, bytesReceived := 0 })) }

/-- The payment data built and signed by `VPNNode.reportBandwidth`. -/
structure UsageReport where
  node : String
  bandwidth : Nat
  timestamp : Nat
deriving Repr, DecidableEq

/-- Method `VPNNode.reportBandwidth()`: one reporting tick.  `signResult` is the
outcome of `blockchain.signPaymentData` (`none` = the call threw, caught by
the surrounding try/catch, leaving the state untouched).  When the
accumulator is non-zero and signing succeeds the source logs the signed
report and immediately calls `resetCounters()`; no submission to the ledger
connector happens anywhere in the function, so the reset does not depend on
any acknowledgement. -/
def reportBandwidth (nodeAddr : String) (now : Nat) (signResult : Option String)
    (st : BandwidthStats) : BandwidthStats × Option UsageReport :=
  if getTotalBandwidth st > 0 then
    match signResult with
    | some _ =>
      (resetCounters st,
       some { node := nodeAddr, bandwidth := getTotalBandwidth st, timestamp := now })
    | none => (st, none)
  else (st, none)

/-! Invariant predicates used by the claims, and concrete fixture states used
by witnesses and counterexamples. -/

/-- Every node record (and the zero record of unset slots) has reputation at
most 100. -/
def repBound (st : RegistryState) : Prop :=
  ∀ a : Address, (lookupNode st a).reputation ≤ 100

/-- A registry call keeps reputation values in range if it either is not
`updateReputation` or sets a value ≤ 100 (`updateReputation` stores its
argument verbatim). -/
def repInRange : RegistryOp → Bool
  | .setReputation _ v _ => v ≤ 100
  | _ => true

/-- Every stream record (and the zero record of unset slots) satisfies
`withdrawn ≤ amount`. -/
def streamsBound (st : HubState) : Prop :=
  ∀ id : Nat, (lookupStream st.streams id).withdrawn ≤ (lookupStream st.streams id).amount

/-- Fixture: an active registered node (address 2) with some prior earnings
and bandwidth bookkeeping. -/
def nodeB : Node :=
  { owner := 2, metadata := "b", stake := 10, reputation := 100, lastActive := 0,
    isActive := true, totalBandwidthProvided := 3, totalEarnings := 7 }

/-- Fixture registry holding `nodeB`. -/
def regB : RegistryState :=
  { minStake := 10, slashAmount := 5, nodes := [(2, nodeB)],
    isRegistered := [2], registeredNodes := [2] }

/-- Fixture hub whose registry is `regB`. -/
def hubB : HubState := initHub 1 50 regB

/-- Fixture payment to node 2. -/
def payB : Payment :=
  { sender := 1, recipient := 2, amount := 100, timestamp := 7, signature := "sig" }

/-- Fixture: an active stream of 1000 tokens vesting over 100 seconds. -/
def streamW : Stream :=
  { sender := 1, recipient := 2, amount := 1000, startTime := 0, endTime := 100,
    withdrawn := 0, isActive := true }

/-- Fixture hub holding `streamW` at stream id 5. -/
def hubW : HubState :=
  { minPayment := 1, paymentFee := 50, totalFeesCollected := 0,
    streams := [(5, streamW)], processedPayments := [], registry := regB }

/-- Fixture `hubW` after the recipient withdraws the full 1000 at `now = 100`. -/
def hubWFull : HubState :=
  { hubW with streams := mapSet hubW.streams 5 { streamW with withdrawn := 1000 } }

/-- Fixture: a registered node (address 3) with stake 300, below the
registry's 500 slash amount. -/
def nodeS : Node :=
  { owner := 3, metadata := "s", stake := 300, reputation := 100, lastActive := 0,
    isActive := true, totalBandwidthProvided := 0, totalEarnings := 0 }

/-- Fixture registry holding `nodeS`, with `slashAmount = 500`. -/
def regS : RegistryState :=
  { minStake := 1000, slashAmount := 500, nodes := [(3, nodeS)],
    isRegistered := [3], registeredNodes := [3] }

/-- Fixture: a tracked client with zeroed counters. -/
def bwClient : ClientStats :=
  { ip := "10.0.0.2", connectedAt := 0, bytesSent := 0, bytesReceived := 0 }

/-- Fixture tracker state with one tracked client and zeroed accumulators. -/
def bwInit : BandwidthStats :=
  { bytesSent := 0, bytesReceived := 0, startTime := 0, clients := [("k", bwClient)] }

/-- Fixture poll result: the tunnel reports cumulative counters of
100 bytes received / 50 bytes sent for peer "k". -/
def tickPoll : List TransferStat :=
  [{ publicKey := "k", received := 100, sent := 50 }]

/-- Fixture accumulator holding 100 unreported bytes. -/
def c8acc : BandwidthStats :=
  { bytesSent := 60, bytesReceived := 40, startTime := 0, clients := [("k", bwClient)] }

/-! Helper lemmas. -/

theorem mapGet_mapSet {β : Type} (d : β) (l : List (Nat × β)) (a b : Nat) (v : β) :
    mapGet d (mapSet l a v) b = if a = b then v else mapGet d l b := rfl

theorem lookupStream_mapSet (l : List (Nat × Stream)) (i j : Nat) (v : Stream) :
    lookupStream (mapSet l i v) j = if i = j then v else lookupStream l j := rfl

theorem runRegistry_preserve (P : RegistryState → Prop) (Q : RegistryOp → Bool)
    (hstep : ∀ op st, Q op = true → P st → P (applyRegistryOp op st)) :
    ∀ ops st, (∀ op ∈ ops, Q op = true) → P st → P (runRegistry ops st) := by
  intro ops
  induction ops with
  | nil => intro st _ h; exact h
  | cons op ops ih =>
    intro st hq h
    exact ih (applyRegistryOp op st) (fun o ho => hq o (by simp [ho]))
      (hstep op st (hq op (by simp)) h)

theorem runHub_preserve (P : HubState → Prop)
    (hstep : ∀ op st, P st → P (applyHubOp op st)) :
    ∀ ops st, P st → P (runHub ops st) := by
  intro ops
  induction ops with
  | nil => intro st h; exact h
  | cons op ops ih =>
    intro st h
    exact ih (applyHubOp op st) (hstep op st h)

/-! Claim theorems. -/

/-- C4: for every registered node, `slashNode` succeeds (never errors due to
insufficient stake), the resulting stake is `max(0, stake - slashAmount)`
and the resulting reputation is `max(0, reputation - 50)`. -/
theorem C4_slashNode_clamped (st : RegistryState) (a : Address) (reason : String)
    (hreg : st.isRegistered.contains a = true) :
    ∃ st2, slashNode a reason st = Except.ok st2 ∧
      ((getNode st2 a).stake : Int) = max 0 ((getNode st a).stake - (st.slashAmount : Int)) ∧
      ((getNode st2 a).reputation : Int) = max 0 ((getNode st a).reputation - 50) := by
  unfold slashNode
  rw [if_pos hreg]
  refine ⟨_, rfl, ?_, ?_⟩
  all_goals simp [getNode, lookupNode, mapGet_mapSet]
  all_goals intros
  all_goals first
  | (split_ifs <;> omega)
  | omega

/-- C4 witness at `regS` (stake 300, reputation 100, slashAmount 500):
slashing clamps stake to 0 and reputation to 50. -/
theorem C4_slashNode_clamped_witness :
    regS.isRegistered.contains 3 = true ∧
    (∃ st2, slashNode 3 "downtime" regS = Except.ok st2 ∧
      ((getNode st2 3).stake : Int) = max 0 ((getNode regS 3).stake - (regS.slashAmount : Int)) ∧
      ((getNode st2 3).reputation : Int) = max 0 ((getNode regS 3).reputation - 50)) :=
  ⟨by decide, C4_slashNode_clamped regS 3 "downtime" (by decide)⟩

/-- C2: for an existing active stream and a query time `now ≥ startTime`,
`getAvailableAmount` equals `amount - withdrawn` once `elapsed ≥ dur`, and
`max(0, floor(amount * elapsed / dur) - withdrawn)` before that, in exact
integer arithmetic. -/
theorem C2_availableAmount_formula (st : HubState) (id now : Nat) (s : Stream)
    (hs : lookupStream st.streams id = s) (hact : s.isActive = true)
    (hnow : s.startTime ≤ now) (hwd : s.withdrawn ≤ s.amount) :
    (s.endTime - s.startTime ≤ now - s.startTime →
      (getAvailableAmount st id now : Int) = (s.amount : Int) - (s.withdrawn : Int)) ∧
    (now - s.startTime < s.endTime - s.startTime →
      (getAvailableAmount st id now : Int) =
        max 0 (((s.amount * (now - s.startTime) / (s.endTime - s.startTime) : Nat) : Int)
          - (s.withdrawn : Int))) := by
  unfold getAvailableAmount
  rw [hs, if_pos hact]
  constructor
  · intro hge
    rw [if_pos hge]
    omega
  · intro hlt
    rw [if_neg (by omega)]
    generalize s.amount * (now - s.startTime) / (s.endTime - s.startTime) = p
    split_ifs <;> omega

/-- Every stream-facing hub call preserves `withdrawn ≤ amount` for every
stream slot. -/
theorem applyHubOp_streamsBound (op : HubOp) (st : HubState)
    (h : streamsBound st) : streamsBound (applyHubOp op st) := by
  cases op with
  | create s r a d n =>
    cases hc : createStream s r a d n st with
    | error e => simpa [applyHubOp, hc, settle] using h
    | ok p =>
      simp only [applyHubOp, hc, Except.map, settle]
      intro id
      unfold createStream at hc
      split_ifs at hc
      injection hc with hc2
      subst hc2
      simp [lookupStream, mapGet_mapSet]
      split
      · exact Nat.zero_le _
      · exact h id
  | withdraw s sid a n =>
    cases hc : withdrawFromStream s sid a n st with
    | error e => simpa [applyHubOp, hc, settle] using h
    | ok st2 =>
      simp only [applyHubOp, hc, settle]
      intro id
      unfold withdrawFromStream at hc
      split_ifs at hc with h1 h2 h3 h4 h5
      injection hc with hc2
      subst hc2
      simp [lookupStream, mapGet_mapSet]
      split
      · exact h4
      · exact h id
  | cancel s sid =>
    cases hc : cancelStream s sid st with
    | error e => simpa [applyHubOp, hc, settle] using h
    | ok st2 =>
      simp only [applyHubOp, hc, settle]
      intro id
      unfold cancelStream at hc
      split_ifs at hc
      injection hc with hc2
      subst hc2
      simp [lookupStream, mapGet_mapSet]
      split
      · exact h sid
      · exact h id

/-- C3: after any sequence of `createStream`, `withdrawFromStream` and
`cancelStream` calls (reverted calls leaving state unchanged), every stream
slot satisfies `0 ≤ withdrawn ≤ amount`. -/
theorem C3_withdrawn_bounds (ops : List HubOp) (mp pf : Nat)
    (reg : RegistryState) (id : Nat) :
    0 ≤ (lookupStream (runHub ops (initHub mp pf reg)).streams id).withdrawn ∧
    (lookupStream (runHub ops (initHub mp pf reg)).streams id).withdrawn ≤
      (lookupStream (runHub ops (initHub mp pf reg)).streams id).amount := by
  refine ⟨Nat.zero_le _, ?_⟩
  have h0 : streamsBound (initHub mp pf reg) := by
    intro i
    exact Nat.le.refl
  exact runHub_preserve streamsBound applyHubOp_streamsBound ops _ h0 id

/-- Every registry call whose `updateReputation` argument (if any) is ≤ 100
preserves the reputation bound; `registerNode` writes 100, `slashNode`
writes `max(0, r - 50)`, the other calls leave reputation unchanged. -/
theorem applyRegistryOp_repBound (op : RegistryOp) (st : RegistryState)
    (hq : repInRange op = true) (h : repBound st) :
    repBound (applyRegistryOp op st) := by
  cases op with
  | register s m k n =>
    cases hc : registerNode s m k n st with
    | error e => simpa [applyRegistryOp, hc, settle] using h
    | ok st2 =>
      simp only [applyRegistryOp, hc, settle]
      intro b
      unfold registerNode at hc
      split_ifs at hc
      injection hc with hc2
      subst hc2
      simp [lookupNode, mapGet_mapSet]
      split
      · exact Nat.le.refl
      · exact h b
  | unregister s =>
    cases hc : unregisterNode s st with
    | error e => simpa [applyRegistryOp, hc, settle] using h
    | ok st2 =>
      simp only [applyRegistryOp, hc, settle]
      intro b
      unfold unregisterNode at hc
      split_ifs at hc
      injection hc with hc2
      subst hc2
      simp [lookupNode, mapGet_mapSet]
      split
      · exact h s
      · exact h b
  | setReputation a v n =>
    simp only [repInRange, decide_eq_true_eq] at hq
    cases hc : updateReputation a v n st with
    | error e => simpa [applyRegistryOp, hc, settle] using h
    | ok st2 =>
      simp only [applyRegistryOp, hc, settle]
      intro b
      unfold updateReputation at hc
      split_ifs at hc
      injection hc with hc2
      subst hc2
      simp [lookupNode, mapGet_mapSet]
      split
      · exact hq
      · exact h b
  | payment t n =>
    cases hc : registryProcessPayment t n st with
    | error e => simpa [applyRegistryOp, hc, settle] using h
    | ok st2 =>
      simp only [applyRegistryOp, hc, settle]
      intro b
      unfold registryProcessPayment at hc
      split_ifs at hc
      injection hc with hc2
      subst hc2
      simp [lookupNode, mapGet_mapSet]
      split
      · exact h t.node
      · exact h b
  | slash a r =>
    cases hc : slashNode a r st with
    | error e => simpa [applyRegistryOp, hc, settle] using h
    | ok st2 =>
      simp only [applyRegistryOp, hc, settle]
      intro b
      unfold slashNode at hc
      split_ifs at hc
      all_goals injection hc with hc2
      all_goals subst hc2
      all_goals simp [lookupNode, mapGet_mapSet]
      all_goals split
      all_goals try exact h b
      all_goals simp
      all_goals have hb := h a
      all_goals simp only [lookupNode] at hb
      all_goals omega

/-- C5 (amended): in every state reachable by registry operations in which
each `updateReputation` call passes a value ≤ 100, every node's reputation
lies in [0,100] (non-negativity is inherent to `uint256`).  The original
claim, with unrestricted `updateReputation`, is refuted by
`C5_reputation_escapes_range`. -/
theorem C5_reputation_bounded_of_capped (ops : List RegistryOp) (ms sa : Nat)
    (a : Address) (h : ∀ op ∈ ops, repInRange op = true) :
    (getNode (runRegistry ops (initRegistry ms sa)) a).reputation ≤ 100 := by
  have h0 : repBound (initRegistry ms sa) := by
    intro b
    exact Nat.zero_le _
  exact runRegistry_preserve repBound repInRange applyRegistryOp_repBound ops _ h h0 a

/-- C5 amended witness: register node 1, set its reputation to 80 — the
bound holds. -/
theorem C5_reputation_bounded_of_capped_witness :
    (∀ op ∈ ([RegistryOp.register 1 "m" 10 0, RegistryOp.setReputation 1 80 0] :
        List RegistryOp), repInRange op = true) ∧
    (getNode (runRegistry [RegistryOp.register 1 "m" 10 0, RegistryOp.setReputation 1 80 0]
        (initRegistry 10 5)) 1).reputation ≤ 100 :=
  ⟨by decide, C5_reputation_bounded_of_capped _ 10 5 1 (by decide)⟩

/-- C5 counterexample: `updateReputation` stores its argument verbatim, so
after registering node 1 and calling `updateReputation(1, 200)` the node's
reputation is 200, outside [0,100]. -/
theorem C5_reputation_escapes_range :
    (getNode (runRegistry [RegistryOp.register 1 "m" 10 0, RegistryOp.setReputation 1 200 0]
        (initRegistry 10 5)) 1).reputation = 200 ∧
    ¬ ((getNode (runRegistry [RegistryOp.register 1 "m" 10 0, RegistryOp.setReputation 1 200 0]
        (initRegistry 10 5)) 1).reputation ≤ 100) :=
  ⟨rfl, by decide⟩

/-- C6: a successful `withdrawFromStream` that brings `withdrawn` up to
`amount` moves the stream from the spec's Active state to its Completed
state, and every subsequent `withdrawFromStream` on that stream fails. -/
theorem C6_full_withdrawal_completes (st : HubState) (caller sid amt now : Nat)
    (st2 : HubState)
    (hw : withdrawFromStream caller sid amt now st = Except.ok st2)
    (hfull : (lookupStream st.streams sid).withdrawn + amt =
      (lookupStream st.streams sid).amount) :
    streamPhase (lookupStream st.streams sid) = StreamPhase.active ∧
    streamPhase (lookupStream st2.streams sid) = StreamPhase.completed ∧
    ∀ caller2 amt2 now2, ∃ e,
      withdrawFromStream caller2 sid amt2 now2 st2 = Except.error e := by
  unfold withdrawFromStream at hw
  split_ifs at hw with h1 h2 h3 h4 h5
  injection hw with hw2
  have hst2 : st2.streams = mapSet st.streams sid
      { lookupStream st.streams sid with
        withdrawn := (lookupStream st.streams sid).withdrawn + amt } := by
    rw [← hw2]
  have hlk : lookupStream
      (mapSet st.streams sid
        { lookupStream st.streams sid with
          withdrawn := (lookupStream st.streams sid).withdrawn + amt }) sid =
      { lookupStream st.streams sid with
        withdrawn := (lookupStream st.streams sid).withdrawn + amt } := by
    rw [lookupStream_mapSet, if_pos rfl]
  refine ⟨?_, ?_, ?_⟩
  · unfold streamPhase
    rw [if_neg (by simp [h1]), if_neg (by omega)]
  · unfold streamPhase
    rw [hst2, hlk, if_neg (by simp [h1]), if_pos (by simpa using hfull)]
  · intro caller2 amt2 now2
    unfold withdrawFromStream
    rw [hst2, hlk]
    by_cases hrec : caller2 = (lookupStream st.streams sid).recipient
    · by_cases hz : amt2 = 0
      · exact ⟨"Amount must be greater than 0", by rw [if_pos h1, if_pos hrec, if_pos hz]⟩
      · refine ⟨"Insufficient stream balance", ?_⟩
        rw [if_pos h1, if_pos hrec, if_neg hz,
          if_neg (show ¬ ((lookupStream st.streams sid).withdrawn + amt + amt2 ≤
            (lookupStream st.streams sid).amount) by omega)]
    · exact ⟨"Only recipient can withdraw", by rw [if_pos h1, if_neg hrec]⟩

/-- C6 witness: full withdrawal of `hubW`'s stream 5 (amount 1000, nothing
withdrawn) at `now = 100`. -/
theorem C6_full_withdrawal_completes_witness :
    withdrawFromStream 2 5 1000 100 hubW = Except.ok hubWFull ∧
    (lookupStream hubW.streams 5).withdrawn + 1000 = (lookupStream hubW.streams 5).amount ∧
    (streamPhase (lookupStream hubW.streams 5) = StreamPhase.active ∧
     streamPhase (lookupStream hubWFull.streams 5) = StreamPhase.completed ∧
     ∀ caller2 amt2 now2, ∃ e,
       withdrawFromStream caller2 5 amt2 now2 hubWFull = Except.error e) :=
  ⟨rfl, by decide,
   C6_full_withdrawal_completes hubW 2 5 1000 100 hubWFull rfl (by decide)⟩

/-- C1 (amended): re-submitting a payment whose id is already in the
processed set reverts with "Payment already processed" and, under
revert-as-no-op call semantics, leaves the state unchanged — so applying the
same ticket twice changes state identically to applying it once and the
recipient's totalEarnings increases only once.  The original claim (the
duplicate returns success) is refuted by `C1_duplicate_payment_reverts`. -/
theorem C1_duplicate_payment_noop (st : HubState) (p : Payment) (now now2 : Nat)
    (st2 : HubState) (h : hubProcessPayment p now st = Except.ok st2) :
    hubProcessPayment p now2 st2 = Except.error "Payment already processed" ∧
    applyHubPayment p now2 st2 = st2 ∧
    (getNode (applyHubPayment p now2 st2).registry p.recipient).totalEarnings =
      (getNode st2.registry p.recipient).totalEarnings := by
  have hmem : st2.processedPayments.contains
      (hash4 p.sender p.recipient p.amount p.timestamp) = true := by
    unfold hubProcessPayment at h
    split_ifs at h
    cases hreg : registryProcessPayment
        { node := p.recipient,
          amount := p.amount - p.amount * st.paymentFee / 10000,
          bandwidth := 0, timestamp := p.timestamp,
          signature := p.signature } now st.registry with
    | error e =>
      rw [hreg] at h
      exact Except.noConfusion h
    | ok reg =>
      rw [hreg] at h
      injection h with h2
      rw [← h2]
      simp
  have h1 : hubProcessPayment p now2 st2 = Except.error "Payment already processed" := by
    unfold hubProcessPayment
    rw [if_pos hmem]
  have h2 : applyHubPayment p now2 st2 = st2 := by
    unfold applyHubPayment
    rw [h1]
    rfl
  exact ⟨h1, h2, by rw [h2]⟩

/-- C1 witness: `hubB` processes `payB` once successfully; the duplicate
reverts and the state (in particular node 2's totalEarnings) is unchanged. -/
theorem C1_duplicate_payment_noop_witness :
    hubProcessPayment payB 0 hubB = Except.ok (applyHubPayment payB 0 hubB) ∧
    (hubProcessPayment payB 1 (applyHubPayment payB 0 hubB) =
        Except.error "Payment already processed" ∧
      applyHubPayment payB 1 (applyHubPayment payB 0 hubB) = applyHubPayment payB 0 hubB ∧
      (getNode (applyHubPayment payB 1 (applyHubPayment payB 0 hubB)).registry
          payB.recipient).totalEarnings =
        (getNode (applyHubPayment payB 0 hubB).registry payB.recipient).totalEarnings) :=
  ⟨rfl, C1_duplicate_payment_noop hubB payB 0 1 _ rfl⟩

/-- C1 counterexample: after `hubB` successfully processes `payB`, the
second call with the identical payment does not return success — it reverts
with "Payment already processed". -/
theorem C1_duplicate_payment_reverts :
    hubProcessPayment payB 1 (applyHubPayment payB 0 hubB) =
      Except.error "Payment already processed" := rfl

/-- C9 (amended): `registerNode` succeeds exactly when the owner has never
registered before (`isRegistered` is never cleared, not even by
`unregisterNode`) and `stake ≥ minStake`: on success reputation starts at
100, the node is active and the stake is escrowed; for a fresh owner with
`stake < minStake` it fails with "Insufficient stake" (no escrow).  The
original claim's "an owner ended by unregisterNode may register again" is
refuted by `C9_reregistration_rejected`. -/
theorem C9_registerNode_fresh_owner (st : RegistryState) (owner : Address)
    (md : String) (stake now : Nat)
    (hnew : st.isRegistered.contains owner = false) :
    (st.minStake ≤ stake →
      ∃ st2, registerNode owner md stake now st = Except.ok st2 ∧
        (getNode st2 owner).reputation = 100 ∧ (getNode st2 owner).isActive = true ∧
        (getNode st2 owner).stake = stake) ∧
    (stake < st.minStake →
      registerNode owner md stake now st = Except.error "Insufficient stake") := by
  constructor
  · intro hs
    unfold registerNode
    rw [if_neg (by rw [hnew]; simp), if_neg (by omega)]
    refine ⟨_, rfl, ?_, ?_, ?_⟩ <;> simp [getNode, lookupNode, mapGet_mapSet]
  · intro hs
    unfold registerNode
    rw [if_neg (by rw [hnew]; simp), if_pos hs]

/-- C9 witness: on the empty registry with `minStake = 1000`, owner 1 with
stake 1000 registers successfully (reputation 100, active, stake escrowed);
with stake 999 it would fail with "Insufficient stake". -/
theorem C9_registerNode_fresh_owner_witness :
    (initRegistry 1000 500).isRegistered.contains 1 = false ∧
    ((1000 ≤ 1000 →
      ∃ st2, registerNode 1 "meta" 1000 0 (initRegistry 1000 500) = Except.ok st2 ∧
        (getNode st2 1).reputation = 100 ∧ (getNode st2 1).isActive = true ∧
        (getNode st2 1).stake = 1000) ∧
    (1000 < 1000 →
      registerNode 1 "meta" 1000 0 (initRegistry 1000 500) =
        Except.error "Insufficient stake")) :=
  ⟨rfl, C9_registerNode_fresh_owner (initRegistry 1000 500) 1 "meta" 1000 0 rfl⟩

/-- C9 counterexample: with `minStake = 10`, owner 1 registers with stake
10, then unregisters (`isActive = false`, stake refunded); registering
again with sufficient stake fails with "Node already registered" because
`unregisterNode` never clears `isRegistered`. -/
theorem C9_reregistration_rejected :
    registerNode 1 "m" 10 0
      (runRegistry [RegistryOp.register 1 "m" 10 0, RegistryOp.unregister 1]
        (initRegistry 10 5)) = Except.error "Node already registered" ∧
    (getNode (runRegistry [RegistryOp.register 1 "m" 10 0, RegistryOp.unregister 1]
        (initRegistry 10 5)) 1).isActive = false :=
  ⟨rfl, rfl⟩

/-- C10: a successful hub `processPayment` credits the recipient node's
totalEarnings with the net amount (fee deducted) and leaves its
totalBandwidthProvided unchanged, because the forwarded ticket carries
`bandwidth = 0`. -/
theorem C10_payment_bandwidth_frame (st : HubState) (p : Payment) (now : Nat)
    (st2 : HubState) (h : hubProcessPayment p now st = Except.ok st2) :
    (getNode st2.registry p.recipient).totalBandwidthProvided =
      (getNode st.registry p.recipient).totalBandwidthProvided ∧
    (getNode st2.registry p.recipient).totalEarnings =
      (getNode st.registry p.recipient).totalEarnings +
        (p.amount - p.amount * st.paymentFee / 10000) := by
  unfold hubProcessPayment at h
  split_ifs at h
  cases hreg : registryProcessPayment
      { node := p.recipient,
        amount := p.amount - p.amount * st.paymentFee / 10000,
        bandwidth := 0, timestamp := p.timestamp,
        signature := p.signature } now st.registry with
  | error e =>
    rw [hreg] at h
    exact Except.noConfusion h
  | ok reg =>
    rw [hreg] at h
    injection h with h2
    have hr2 : st2.registry = reg := by rw [← h2]
    unfold registryProcessPayment at hreg
    split_ifs at hreg
    injection hreg with hreg2
    rw [hr2, ← hreg2]
    constructor <;> simp [getNode, lookupNode, mapGet_mapSet]

/-- C10 witness: `hubB` processes `payB` (amount 100, fee 0); node 2's
totalEarnings grows by 100 and its totalBandwidthProvided is unchanged. -/
theorem C10_payment_bandwidth_frame_witness :
    hubProcessPayment payB 0 hubB = Except.ok (applyHubPayment payB 0 hubB) ∧
    ((getNode (applyHubPayment payB 0 hubB).registry payB.recipient).totalBandwidthProvided =
      (getNode hubB.registry payB.recipient).totalBandwidthProvided ∧
     (getNode (applyHubPayment payB 0 hubB).registry payB.recipient).totalEarnings =
      (getNode hubB.registry payB.recipient).totalEarnings +
        (payB.amount - payB.amount * hubB.paymentFee / 10000)) :=
  ⟨rfl, C10_payment_bandwidth_frame hubB payB 0 _ rfl⟩

/-- C7: `updateStats` adds the tunnel's full cumulative counters on every
tick.  Polling the same cumulative counters (100 rx / 50 tx for peer "k")
on two consecutive ticks — i.e. zero traffic between the ticks, delta 0 —
accumulates 200/100 globally instead of leaving the totals at 100/50; no
delta against the previous poll is ever computed. -/
theorem C7_cumulative_readded_each_tick :
    (updateStats tickPoll bwInit).bytesReceived = 100 ∧
    (updateStats tickPoll (updateStats tickPoll bwInit)).bytesReceived = 200 ∧
    (updateStats tickPoll (updateStats tickPoll bwInit)).bytesSent = 100 ∧
    (getClient (updateStats tickPoll (updateStats tickPoll bwInit)).clients "k").bytesReceived = 200 := by
  decide

/-- C8: `reportBandwidth` signs the report and immediately resets the
accumulator (here holding 100 unreported bytes); there is no submission and
no acknowledgement anywhere in the call, so the reset is unconditional on
signing success. -/
theorem C8_reset_without_ack :
    getTotalBandwidth c8acc = 100 ∧
    (reportBandwidth "node1" 5 (some "0xsig") c8acc).1.bytesSent = 0 ∧
    (reportBandwidth "node1" 5 (some "0xsig") c8acc).1.bytesReceived = 0 ∧
    (reportBandwidth "node1" 5 (some "0xsig") c8acc).2 =
      some { node := "node1", bandwidth := 100, timestamp := 5 } := by
  decide

/-- C2 witness at `hubW`'s stream 5 (1000 over [0,100], nothing withdrawn)
queried at `now = 50`. -/
theorem C2_availableAmount_formula_witness :
    lookupStream hubW.streams 5 = streamW ∧ streamW.isActive = true ∧
    streamW.startTime ≤ 50 ∧ streamW.withdrawn ≤ streamW.amount ∧
    ((streamW.endTime - streamW.startTime ≤ 50 - streamW.startTime →
      (getAvailableAmount hubW 5 50 : Int) = (streamW.amount : Int) - (streamW.withdrawn : Int)) ∧
    (50 - streamW.startTime < streamW.endTime - streamW.startTime →
      (getAvailableAmount hubW 5 50 : Int) =
        max 0 (((streamW.amount * (50 - streamW.startTime) /
            (streamW.endTime - streamW.startTime) : Nat) : Int)
          - (streamW.withdrawn : Int)))) :=
  ⟨rfl, rfl, by decide, by decide,
   C2_availableAmount_formula hubW 5 50 streamW rfl rfl (by decide) (by decide)⟩

end DVPN
